import Mathlib

set_option autoImplicit false

/-!
# Verification of the OCR batch-processing core (`src/App.tsx`)

Shallow embedding of the batch orchestrator in `App.tsx`:
`processImage`, `processPDF` and `processFiles`, together with the
progress-logger callback passed to `createWorker`.

External collaborators (the tesseract.js worker and the pdf.js
rasterizer) are modelled as an environment `Env` of pure functions;
a failing call (a rejected promise / thrown exception) is `none`.
Each embedded operation returns the list of calls it makes on the
collaborators (the event trace) together with its result, so that
lifecycle properties (one worker, one initialization, one terminate)
are statable.
-/

/-- A queued file: its display name and its declared MIME type
(`file.name`, `file.type` in the source). -/
structure QueuedFile where
  name : String
  type : String
deriving DecidableEq, Repr

/-- An image source handed to `worker.recognize`: either the raw file
object (single-image path, `worker.recognize(file)`) or a rendered
page's data URL (`worker.recognize(canvas.toDataURL('image/png'))`). -/
inductive ImageSource where
  | file (f : QueuedFile)
  | dataURL (u : String)
deriving DecidableEq, Repr

/-- The behaviour of the external collaborators for one run.
`loadOk` / `initOk`: whether `worker.loadLanguage` / `worker.initialize`
succeed. `getDocument f`: page count when `pdfjs.getDocument` succeeds
on `f`. `renderPage f i s`: the data URL produced by rendering page `i`
of `f` at scale `s` (`getPage` + `render` + `toDataURL`), or `none` on a
render failure. `recognize src`: the recognized text, or `none` when the
worker fails on that image. -/
structure Env where
  loadOk : Bool
  initOk : Bool
  getDocument : QueuedFile → Option Nat
  renderPage : QueuedFile → Nat → ℚ → Option String
  recognize : ImageSource → Option String

/-- One observable call on an external collaborator, tagged with the
worker instance id where a worker method is involved. -/
inductive Event where
  | createWorker (wid : Nat)
  | loadLanguage (wid : Nat) (lang : String)
  | initializeWorker (wid : Nat) (lang : String)
  | renderPageEv (f : QueuedFile) (pageIndex : Nat) (scale : ℚ)
  | recognizeEv (wid : Nat) (src : ImageSource)
  | terminateWorker (wid : Nat)
deriving DecidableEq, Repr

/-- `processImage` (App.tsx:45-48): recognize the raw file directly. -/
def processImage (env : Env) (wid : Nat) (f : QueuedFile) :
    List Event × Option String :=
  ([Event.recognizeEv wid (ImageSource.file f)],
   env.recognize (ImageSource.file f))

/-- The page block `"Page {i}:\n{text}\n\n"` appended per page
(App.tsx:63). -/
def pageBlock (i : Nat) (text : String) : String :=
  "Page " ++ toString i ++ ":\n" ++ text ++ "\n\n"

/-- The `for (let i = 1; i <= pdf.numPages; i++)` loop of `processPDF`
(App.tsx:54-64): `processPDFPages env wid f n` runs pages `1..n`.
Each iteration renders page `i` at scale `3/2` and recognizes the
resulting data URL; the first failing step aborts the whole loop with
`none` (the exception propagates out of `processPDF`). -/
def processPDFPages (env : Env) (wid : Nat) (f : QueuedFile) :
    Nat → List Event × Option String
  | 0 => ([], some "")
  | n + 1 =>
    let (evs, acc) := processPDFPages env wid f n
    match acc with
    | none => (evs, none)
    | some text =>
      match env.renderPage f (n + 1) (3/2 : ℚ) with
      | none => (evs ++ [Event.renderPageEv f (n + 1) (3/2 : ℚ)], none)
      | some url =>
        let evs2 := evs ++ [Event.renderPageEv f (n + 1) (3/2 : ℚ),
                            Event.recognizeEv wid (ImageSource.dataURL url)]
        match env.recognize (ImageSource.dataURL url) with
        | none => (evs2, none)
        | some pageText => (evs2, some (text ++ pageBlock (n + 1) pageText))

/-- `processPDF` (App.tsx:50-67): open the document (which yields
`pdf.numPages`, failing when the bytes are not a valid document), then
run the page loop. -/
def processPDF (env : Env) (wid : Nat) (f : QueuedFile) :
    List Event × Option String :=
  match env.getDocument f with
  | none => ([], none)
  | some n => processPDFPages env wid f n

/-- The classify-and-dispatch step inside the per-file loop
(App.tsx:92-96): `file.type === 'application/pdf'` takes the multi-page
path, anything else the single-image path. -/
def processOneFile (env : Env) (wid : Nat) (f : QueuedFile) :
    List Event × Option String :=
  if f.type = "application/pdf" then processPDF env wid f
  else processImage env wid f

/-- The fixed per-file failure message (App.tsx:100). -/
def failureMessage : String :=
  "Error: Unable to process this file. It may be corrupted or in an unsupported format."

/-- The run-level error message set by the outer catch (App.tsx:107). -/
def ocrErrorMessage : String :=
  "An error occurred during OCR processing. Please try again with different files."

/-- The block appended to `combinedResult` for one file (App.tsx:97,100):
the recognized text on success, the fixed failure message when the
per-file catch fires. -/
def fileBlock (env : Env) (wid : Nat) (f : QueuedFile) : String :=
  match (processOneFile env wid f).2 with
  | some text => "File: " ++ f.name ++ "\n\n" ++ text ++ "\n\n"
  | none => "File: " ++ f.name ++ "\n\n" ++ failureMessage ++ "\n\n"

/-- The `for (const file of files)` loop (App.tsx:89-102), accumulating
`combinedResult` and the trace of collaborator calls. -/
def filesLoop (env : Env) (wid : Nat) : List QueuedFile → List Event × String
  | [] => ([], "")
  | f :: fs =>
    let (evs, _) := processOneFile env wid f
    let (evsRest, rest) := filesLoop env wid fs
    (evs ++ evsRest, fileBlock env wid f ++ rest)

/-- The run state left behind by `processFiles`: the pieces of React
state it writes (`isProcessing`, `results`, `progress`, `error`). -/
structure RunState where
  isProcessing : Bool
  results : String
  progress : ℚ
  error : Option String
deriving DecidableEq, Repr

/-- `processFiles` (App.tsx:69-113): create one worker, load and
initialize the selected language (each failure jumping to the outer
catch), run the per-file loop, publish the combined report; the
`finally` block always terminates the worker and resets the flags. -/
def processFiles (env : Env) (lang : String) (files : List QueuedFile) :
    List Event × RunState :=
  let wid := 0
  if env.loadOk then
    if env.initOk then
      let (evs, combined) := filesLoop env wid files
      ([Event.createWorker wid, Event.loadLanguage wid lang,
        Event.initializeWorker wid lang] ++ evs ++ [Event.terminateWorker wid],
       { isProcessing := false, results := combined, progress := 0, error := none })
    else
      ([Event.createWorker wid, Event.loadLanguage wid lang,
        Event.initializeWorker wid lang, Event.terminateWorker wid],
       { isProcessing := false, results := "", progress := 0,
         error := some ocrErrorMessage })
  else
    ([Event.createWorker wid, Event.loadLanguage wid lang,
      Event.terminateWorker wid],
     { isProcessing := false, results := "", progress := 0,
       error := some ocrErrorMessage })

/-- JavaScript's `parseInt(x.toString())` on a non-negative number whose
decimal form has no exponent: the integer part, i.e. the floor. The
logger's progress values lie in `[0,1]`. -/
def jsParseInt (q : ℚ) : Int :=
  if 0 ≤ q then ⌊q⌋ else -⌊-q⌋

/-- The logger callback passed to `createWorker` (App.tsx:76-80): on a
`'recognizing text'` event it overwrites the displayed progress with
`parseInt(m.progress.toString()) * 100`; any other status leaves the
displayed progress unchanged. -/
def loggerUpdate (status : String) (p : ℚ) (current : ℚ) : ℚ :=
  if status = "recognizing text" then (jsParseInt p : ℚ) * 100 else current

/-- Is this event a `worker.terminate()` call? -/
def Event.isTerminate : Event → Bool
  | .terminateWorker _ => true
  | _ => false

/-- Is this event a `createWorker` call? -/
def Event.isCreate : Event → Bool
  | .createWorker _ => true
  | _ => false

/-- Is this event a `worker.initialize(lang)` call? -/
def Event.isInitialize : Event → Bool
  | .initializeWorker _ _ => true
  | _ => false

/-- Is this event a `worker.recognize(...)` call? -/
def Event.isRecognize : Event → Bool
  | .recognizeEv _ _ => true
  | _ => false

/-- The worker id a worker-method event is addressed to. -/
def Event.workerId : Event → Option Nat
  | .createWorker w => some w
  | .loadLanguage w _ => some w
  | .initializeWorker w _ => some w
  | .recognizeEv w _ => some w
  | .terminateWorker w => some w
  | .renderPageEv _ _ _ => none

/-- An event emitted while processing files: not a worker lifecycle
call, and any recognize call it makes is addressed to worker `wid`. -/
def NonLifecycle (wid : Nat) (e : Event) : Prop :=
  e.isCreate = false ∧ e.isInitialize = false ∧ e.isTerminate = false
    ∧ (e.isRecognize = true → e.workerId = some wid)

/-- Concatenation of a list of strings in order. -/
def joinAll : List String → String
  | [] => ""
  | s :: l => s ++ joinAll l

/-- The combined report for a batch: one `fileBlock` per queued file,
concatenated in insertion order. -/
def batchReport (env : Env) (files : List QueuedFile) : String :=
  joinAll (files.map (fileBlock env 0))

/-- Terminal outcome 1: the run finished with a completed batch report
and no run-level error. -/
def CompletedOutcome (env : Env) (files : List QueuedFile) (st : RunState) : Prop :=
  st.error = none ∧ st.results = batchReport env files

/-- Terminal outcome 2: the run aborted fatally with a single run-level
error message and an empty report. -/
def FatalOutcome (st : RunState) : Prop :=
  st.error = some ocrErrorMessage ∧ st.results = ""

/-- Page `i` of `f` fails: either its render fails, or its render
succeeds and the recognition of the rendered page fails. -/
def pageFails (env : Env) (f : QueuedFile) (i : Nat) : Bool :=
  match env.renderPage f i (3/2 : ℚ) with
  | none => true
  | some url => (env.recognize (ImageSource.dataURL url)).isNone

/-- A concrete environment used to instantiate theorems with
hypotheses: language load and initialization succeed, `doc.pdf` is a
2-page document, rendering always succeeds, and recognition succeeds on
everything except the file named `corrupt.png`. -/
def sampleEnv : Env where
  loadOk := true
  initOk := true
  getDocument := fun f => if f.name = "doc.pdf" then some 2 else none
  renderPage := fun f i _ => some (f.name ++ "#page" ++ toString i)
  recognize := fun src =>
    match src with
    | .file f => if f.name = "corrupt.png" then none else some ("text of " ++ f.name)
    | .dataURL u => some ("text of " ++ u)

/-- A concrete environment in which `worker.initialize` fails. -/
def badInitEnv : Env :=
  { sampleEnv with initOk := false }

/-- A concrete environment in which recognition fails on the rendered
second page of `doc.pdf` (and on `corrupt.png`), succeeding elsewhere. -/
def badPageEnv : Env :=
  { sampleEnv with
    recognize := fun src =>
      match src with
      | .file g => if g.name = "corrupt.png" then none
                   else some ("text of " ++ g.name)
      | .dataURL u => if u = "doc.pdf#page2" then none
                      else some ("text of " ++ u) }

/-! ## Helper lemmas on traces and reports -/

lemma processPDFPages_countP_terminate (env : Env) (wid : Nat) (f : QueuedFile)
    (n : Nat) : ((processPDFPages env wid f n).1.countP Event.isTerminate) = 0 := by
  induction n with
  | zero => simp [processPDFPages]
  | succ n ih =>
    simp only [processPDFPages]
    cases hacc : (processPDFPages env wid f n).2 with
    | none => simpa [hacc] using ih
    | some text =>
      cases hr : env.renderPage f (n + 1) (3/2 : ℚ) with
      | none =>
        simp [hacc, hr, List.countP_append, ih, Event.isTerminate, List.countP_cons]
      | some url =>
        cases hc : env.recognize (ImageSource.dataURL url) with
        | none =>
          simp [hacc, hr, hc, List.countP_append, ih, Event.isTerminate,
            List.countP_cons]
        | some pageText =>
          simp [hacc, hr, hc, List.countP_append, ih, Event.isTerminate,
            List.countP_cons]

lemma processOneFile_countP_terminate (env : Env) (wid : Nat) (f : QueuedFile) :
    ((processOneFile env wid f).1.countP Event.isTerminate) = 0 := by
  unfold processOneFile
  split
  · unfold processPDF
    cases env.getDocument f with
    | none => simp
    | some n => simpa using processPDFPages_countP_terminate env wid f n
  · simp [processImage, Event.isTerminate]

lemma filesLoop_countP_terminate (env : Env) (wid : Nat)
    (files : List QueuedFile) :
    ((filesLoop env wid files).1.countP Event.isTerminate) = 0 := by
  induction files with
  | nil => simp [filesLoop]
  | cons f fs ih =>
    simp only [filesLoop, List.countP_append]
    simp [processOneFile_countP_terminate, ih]

lemma joinAll_append (l₁ l₂ : List String) :
    joinAll (l₁ ++ l₂) = joinAll l₁ ++ joinAll l₂ := by
  induction l₁ with
  | nil => simp [joinAll]
  | cons s l ih => simp [joinAll, ih, String.append_assoc]

lemma filesLoop_results (env : Env) (wid : Nat) (files : List QueuedFile) :
    (filesLoop env wid files).2 = joinAll (files.map (fileBlock env wid)) := by
  induction files with
  | nil => simp [filesLoop, joinAll]
  | cons f fs ih => simp [filesLoop, joinAll, ih]

lemma nonLifecycle_renderPageEv (wid : Nat) (g : QueuedFile) (p : Nat) (s : ℚ) :
    NonLifecycle wid (Event.renderPageEv g p s) := by
  refine ⟨rfl, rfl, rfl, ?_⟩
  intro h
  simp [Event.isRecognize] at h

lemma nonLifecycle_recognizeEv (wid : Nat) (src : ImageSource) :
    NonLifecycle wid (Event.recognizeEv wid src) :=
  ⟨rfl, rfl, rfl, fun _ => rfl⟩

lemma processPDFPages_nonLifecycle (env : Env) (wid : Nat) (f : QueuedFile)
    (n : Nat) : ∀ e ∈ (processPDFPages env wid f n).1, NonLifecycle wid e := by
  induction n with
  | zero => simp [processPDFPages]
  | succ n ih =>
    simp only [processPDFPages]
    cases hacc : (processPDFPages env wid f n).2 with
    | none => simpa [hacc] using ih
    | some text =>
      cases hr : env.renderPage f (n + 1) (3/2 : ℚ) with
      | none =>
        intro e he
        simp only [hacc, hr, List.mem_append, List.mem_singleton] at he
        rcases he with he | he
        · exact ih e he
        · subst he; exact nonLifecycle_renderPageEv wid f (n + 1) (3/2 : ℚ)
      | some url =>
        cases hc : env.recognize (ImageSource.dataURL url) with
        | none =>
          intro e he
          simp only [hacc, hr, hc, List.mem_append, List.mem_cons,
            List.mem_singleton, List.not_mem_nil, or_false] at he
          rcases he with he | he | he
          · exact ih e he
          · subst he; exact nonLifecycle_renderPageEv wid f (n + 1) (3/2 : ℚ)
          · subst he; exact nonLifecycle_recognizeEv wid (ImageSource.dataURL url)
        | some pageText =>
          intro e he
          simp only [hacc, hr, hc, List.mem_append, List.mem_cons,
            List.mem_singleton, List.not_mem_nil, or_false] at he
          rcases he with he | he | he
          · exact ih e he
          · subst he; exact nonLifecycle_renderPageEv wid f (n + 1) (3/2 : ℚ)
          · subst he; exact nonLifecycle_recognizeEv wid (ImageSource.dataURL url)

lemma processOneFile_nonLifecycle (env : Env) (wid : Nat) (f : QueuedFile) :
    ∀ e ∈ (processOneFile env wid f).1, NonLifecycle wid e := by
  unfold processOneFile
  split
  · unfold processPDF
    cases env.getDocument f with
    | none => simp
    | some n => exact processPDFPages_nonLifecycle env wid f n
  · intro e he
    simp only [processImage, List.mem_singleton] at he
    subst he
    exact nonLifecycle_recognizeEv wid (ImageSource.file f)

lemma filesLoop_nonLifecycle (env : Env) (wid : Nat) (files : List QueuedFile) :
    ∀ e ∈ (filesLoop env wid files).1, NonLifecycle wid e := by
  induction files with
  | nil => simp [filesLoop]
  | cons f fs ih =>
    intro e he
    simp only [filesLoop, List.mem_append] at he
    rcases he with he | he
    · exact processOneFile_nonLifecycle env wid f e he
    · exact ih e he

lemma filesLoop_countP_create (env : Env) (wid : Nat)
    (files : List QueuedFile) :
    ((filesLoop env wid files).1.countP Event.isCreate) = 0 :=
  List.countP_eq_zero.mpr fun e he => by
    simp [(filesLoop_nonLifecycle env wid files e he).1]

lemma filesLoop_countP_initialize (env : Env) (wid : Nat)
    (files : List QueuedFile) :
    ((filesLoop env wid files).1.countP Event.isInitialize) = 0 :=
  List.countP_eq_zero.mpr fun e he => by
    simp [(filesLoop_nonLifecycle env wid files e he).2.1]

/-! ## C1: the progress logger does not scale the fraction -/

/-- C1 (code bug). The claim says that a `'recognizing text'` event with
fraction `p` sets the displayed progress to `p * 100`. The code computes
`parseInt(m.progress.toString()) * 100`, which truncates the fraction
before scaling: at the concrete failing input `p = 1/2` the displayed
progress becomes `0` from any current value, whereas the claimed value
is `1/2 * 100 = 50`. -/
theorem c1_progress_parseInt_truncates :
    (∀ current : ℚ, loggerUpdate "recognizing text" (1/2) current = 0)
    ∧ (1/2 : ℚ) * 100 = 50 ∧ (0 : ℚ) ≠ 50 := by
  refine ⟨fun current => ?_, by norm_num, by norm_num⟩
  simp only [loggerUpdate, jsParseInt, if_pos rfl]
  norm_num

/-! ## C2: the worker is terminated exactly once on every terminal path -/

/-- C2 (confirmed). For every environment (hence on every terminal path:
full success, per-file failures, and a fatal abort in language load or
initialization), the trace of a `processFiles` run contains exactly one
`worker.terminate()` call — the `finally` block runs once on each path. -/
theorem c2_terminate_exactly_once (env : Env) (lang : String)
    (files : List QueuedFile) :
    ((processFiles env lang files).1.countP Event.isTerminate) = 1 := by
  unfold processFiles
  cases env.loadOk with
  | false => simp [Event.isTerminate]
  | true =>
    cases env.initOk with
    | false => simp [Event.isTerminate]
    | true =>
      simp only [if_pos rfl, List.countP_append]
      simp [Event.isTerminate, filesLoop_countP_terminate, List.countP_cons]

/-! ## C3: per-file errors are isolated -/

/-- C3 (confirmed). If any error is raised while processing file `f`
(its per-file result is `none`), the run still completes without a
run-level error, and the report consists of the other files' blocks
unchanged around `f`'s failure block carrying the fixed message — the
failure neither aborts the batch nor alters other files' results. -/
theorem c3_file_failure_isolated (env : Env) (lang : String)
    (pre post : List QueuedFile) (f : QueuedFile)
    (h1 : env.loadOk = true) (h2 : env.initOk = true)
    (hfail : (processOneFile env 0 f).2 = none) :
    (processFiles env lang (pre ++ f :: post)).2.results
      = joinAll (pre.map (fileBlock env 0))
        ++ ("File: " ++ f.name ++ "\n\n" ++ failureMessage ++ "\n\n"
            ++ joinAll (post.map (fileBlock env 0)))
    ∧ (processFiles env lang (pre ++ f :: post)).2.error = none := by
  have hblock : fileBlock env 0 f
      = "File: " ++ f.name ++ "\n\n" ++ failureMessage ++ "\n\n" := by
    unfold fileBlock
    rw [hfail]
  constructor
  · unfold processFiles
    simp [h1, h2, filesLoop_results, List.map_append, List.map_cons,
      joinAll_append, joinAll, hblock]
  · unfold processFiles
    simp [h1, h2]

/-- Witness for C3: in `sampleEnv` the file `corrupt.png` fails, and a
batch `[good.png, corrupt.png, doc.pdf]` yields the failure block for
`corrupt.png` between the other two files' untouched blocks. -/
theorem c3_witness :
    sampleEnv.loadOk = true ∧ sampleEnv.initOk = true
    ∧ (processOneFile sampleEnv 0 ⟨"corrupt.png", "image/png"⟩).2 = none
    ∧ (processFiles sampleEnv "eng"
        ([⟨"good.png", "image/png"⟩] ++ ⟨"corrupt.png", "image/png"⟩
          :: [⟨"doc.pdf", "application/pdf"⟩])).2.results
      = joinAll ([(⟨"good.png", "image/png"⟩ : QueuedFile)].map (fileBlock sampleEnv 0))
        ++ ("File: " ++ "corrupt.png" ++ "\n\n" ++ failureMessage ++ "\n\n"
            ++ joinAll ([(⟨"doc.pdf", "application/pdf"⟩ : QueuedFile)].map
                (fileBlock sampleEnv 0)))
    ∧ (processFiles sampleEnv "eng"
        ([⟨"good.png", "image/png"⟩] ++ ⟨"corrupt.png", "image/png"⟩
          :: [⟨"doc.pdf", "application/pdf"⟩])).2.error = none :=
  ⟨rfl, rfl, rfl,
    (c3_file_failure_isolated sampleEnv "eng" [⟨"good.png", "image/png"⟩]
      [⟨"doc.pdf", "application/pdf"⟩] ⟨"corrupt.png", "image/png"⟩ rfl rfl rfl).1,
    (c3_file_failure_isolated sampleEnv "eng" [⟨"good.png", "image/png"⟩]
      [⟨"doc.pdf", "application/pdf"⟩] ⟨"corrupt.png", "image/png"⟩ rfl rfl rfl).2⟩

/-! ## C4: fatal initialization failure and the two terminal outcomes -/

/-- C4 (confirmed). Every run ends in one of the two terminal outcomes —
a completed batch report with no run-level error, or a fatal abort with
the single run-level error message and an empty report (zero file
results); the two are mutually exclusive; and the fatal outcome occurs
exactly when language load or initialization fails. -/
theorem c4_fatal_abort_outcomes (env : Env) (lang : String)
    (files : List QueuedFile) :
    (CompletedOutcome env files (processFiles env lang files).2
      ∨ FatalOutcome (processFiles env lang files).2)
    ∧ ¬(CompletedOutcome env files (processFiles env lang files).2
        ∧ FatalOutcome (processFiles env lang files).2)
    ∧ (FatalOutcome (processFiles env lang files).2
        ↔ ¬(env.loadOk = true ∧ env.initOk = true)) := by
  unfold processFiles CompletedOutcome FatalOutcome batchReport
  cases hl : env.loadOk with
  | false => simp [ocrErrorMessage]
  | true =>
    cases hi : env.initOk with
    | false => simp [ocrErrorMessage]
    | true => simp [filesLoop_results, ocrErrorMessage]

/-! ## C5: the report is the ordered concatenation of file blocks -/

/-- C5 (confirmed). When the run is not fatally aborted, the final
combined report is exactly the concatenation of one
`"File: {name}\n\n{body}\n\n"` block per queued file, in the batch's
insertion order, regardless of which files succeeded or failed. -/
theorem c5_report_is_ordered_blocks (env : Env) (lang : String)
    (files : List QueuedFile)
    (h1 : env.loadOk = true) (h2 : env.initOk = true) :
    (processFiles env lang files).2.results
      = joinAll (files.map (fileBlock env 0)) := by
  unfold processFiles
  simp [h1, h2, filesLoop_results]

/-- Witness for C5: a concrete mixed batch in `sampleEnv`. -/
theorem c5_witness :
    sampleEnv.loadOk = true ∧ sampleEnv.initOk = true
    ∧ (processFiles sampleEnv "eng"
        [⟨"good.png", "image/png"⟩, ⟨"corrupt.png", "image/png"⟩]).2.results
      = joinAll ([(⟨"good.png", "image/png"⟩ : QueuedFile),
          ⟨"corrupt.png", "image/png"⟩].map (fileBlock sampleEnv 0)) :=
  ⟨rfl, rfl, c5_report_is_ordered_blocks sampleEnv "eng"
    [⟨"good.png", "image/png"⟩, ⟨"corrupt.png", "image/png"⟩] rfl rfl⟩

/-! ## C6: pages are processed 1..pageCount in order at scale 1.5 -/

lemma processPDFPages_success (env : Env) (wid : Nat) (f : QueuedFile)
    (url txt : Nat → String) :
    ∀ n : Nat,
      (∀ i, 1 ≤ i → i ≤ n → env.renderPage f i (3/2 : ℚ) = some (url i)) →
      (∀ i, 1 ≤ i → i ≤ n →
        env.recognize (ImageSource.dataURL (url i)) = some (txt i)) →
      processPDFPages env wid f n
        = (List.flatten ((List.range n).map fun k =>
             [Event.renderPageEv f (k + 1) (3/2 : ℚ),
              Event.recognizeEv wid (ImageSource.dataURL (url (k + 1)))]),
           some (joinAll ((List.range n).map fun k =>
             pageBlock (k + 1) (txt (k + 1))))) := by
  intro n
  induction n with
  | zero => intro _ _; simp [processPDFPages, joinAll]
  | succ n ih =>
    intro hrender hrec
    have ihr := ih (fun i h1 h2 => hrender i h1 (Nat.le_succ_of_le h2))
      (fun i h1 h2 => hrec i h1 (Nat.le_succ_of_le h2))
    have hrn := hrender (n + 1) (Nat.succ_le_succ (Nat.zero_le n)) (Nat.le_refl _)
    have hcn := hrec (n + 1) (Nat.succ_le_succ (Nat.zero_le n)) (Nat.le_refl _)
    simp only [processPDFPages, ihr, hrn, hcn]
    simp [List.range_succ, joinAll_append, joinAll, String.append_assoc]

/-- C6 (confirmed). For a document with `n` pages, `processPDF` renders
pages `1` through `n` inclusive, in strictly increasing order with no
skipping, each at the fixed scale `3/2 = 1.5`, and returns the
concatenation in page order of the `"Page {i}:\n{text}\n\n"` blocks,
one per page. -/
theorem c6_pdf_pages_in_order (env : Env) (wid : Nat) (f : QueuedFile)
    (n : Nat) (url txt : Nat → String)
    (hdoc : env.getDocument f = some n)
    (hrender : ∀ i, 1 ≤ i → i ≤ n → env.renderPage f i (3/2 : ℚ) = some (url i))
    (hrec : ∀ i, 1 ≤ i → i ≤ n →
      env.recognize (ImageSource.dataURL (url i)) = some (txt i)) :
    processPDF env wid f
      = (List.flatten ((List.range n).map fun k =>
           [Event.renderPageEv f (k + 1) (3/2 : ℚ),
            Event.recognizeEv wid (ImageSource.dataURL (url (k + 1)))]),
         some (joinAll ((List.range n).map fun k =>
           pageBlock (k + 1) (txt (k + 1))))) := by
  unfold processPDF
  rw [hdoc]
  exact processPDFPages_success env wid f url txt n hrender hrec

/-- Witness for C6: `doc.pdf` has two pages in `sampleEnv`; both are
rendered at scale `3/2`, in order, and the result is the two page
blocks concatenated. -/
theorem c6_witness :
    sampleEnv.getDocument ⟨"doc.pdf", "application/pdf"⟩ = some 2
    ∧ processPDF sampleEnv 0 ⟨"doc.pdf", "application/pdf"⟩
      = (List.flatten ((List.range 2).map fun k =>
           [Event.renderPageEv ⟨"doc.pdf", "application/pdf"⟩ (k + 1) (3/2 : ℚ),
            Event.recognizeEv 0 (ImageSource.dataURL
              ("doc.pdf" ++ "#page" ++ toString (k + 1)))]),
         some (joinAll ((List.range 2).map fun k =>
           pageBlock (k + 1)
             ("text of " ++ ("doc.pdf" ++ "#page" ++ toString (k + 1)))))) :=
  ⟨rfl, c6_pdf_pages_in_order sampleEnv 0 ⟨"doc.pdf", "application/pdf"⟩ 2
    (fun i => "doc.pdf" ++ "#page" ++ toString i)
    (fun i => "text of " ++ ("doc.pdf" ++ "#page" ++ toString i))
    rfl (fun _ _ _ => rfl) (fun _ _ _ => rfl)⟩

/-! ## C7: a single page failure fails the whole document -/

lemma processPDFPages_page_failure (env : Env) (wid : Nat) (f : QueuedFile)
    (i : Nat) (hi : 1 ≤ i) (hfail : pageFails env f i = true) :
    ∀ n, i ≤ n → (processPDFPages env wid f n).2 = none := by
  intro n
  induction n with
  | zero => intro h; exact absurd (Nat.le_trans hi h) (by simp)
  | succ n ih =>
    intro hin
    simp only [processPDFPages]
    cases hacc : (processPDFPages env wid f n).2 with
    | none => simp
    | some text =>
      rcases Nat.lt_or_ge i (n + 1) with hlt | hge
      · exact absurd hacc (by simp [ih (Nat.le_of_lt_succ hlt)])
      · have hieq : i = n + 1 := Nat.le_antisymm hin hge
        subst hieq
        unfold pageFails at hfail
        cases hr : env.renderPage f (n + 1) (3/2 : ℚ) with
        | none => simp [hr]
        | some u =>
          rw [hr] at hfail
          simp only [Option.isNone_iff_eq_none] at hfail
          simp [hr, hfail]

/-- C7 (confirmed). If any single page of a multi-page document fails
(render or recognize), the whole file's processing result is `none` and
its block in the report is exactly the fixed failure message — none of
the already-recognized pages' text survives. -/
theorem c7_page_failure_fails_whole_file (env : Env) (f : QueuedFile)
    (n i : Nat) (hpdf : f.type = "application/pdf")
    (hdoc : env.getDocument f = some n)
    (h1 : 1 ≤ i) (h2 : i ≤ n) (hfail : pageFails env f i = true) :
    (processOneFile env 0 f).2 = none
    ∧ fileBlock env 0 f
      = "File: " ++ f.name ++ "\n\n" ++ failureMessage ++ "\n\n" := by
  have hnone : (processOneFile env 0 f).2 = none := by
    unfold processOneFile processPDF
    rw [if_pos hpdf, hdoc]
    exact processPDFPages_page_failure env 0 f i h1 hfail n h2
  refine ⟨hnone, ?_⟩
  unfold fileBlock
  rw [hnone]

/-- Witness for C7: in `badPageEnv`, recognition fails on the rendered
second page of `doc.pdf`, so the whole file is reported with the fixed
failure message. -/
theorem c7_witness :
    (⟨"doc.pdf", "application/pdf"⟩ : QueuedFile).type = "application/pdf"
    ∧ badPageEnv.getDocument ⟨"doc.pdf", "application/pdf"⟩ = some 2
    ∧ pageFails badPageEnv ⟨"doc.pdf", "application/pdf"⟩ 2 = true
    ∧ (processOneFile badPageEnv 0 ⟨"doc.pdf", "application/pdf"⟩).2 = none
    ∧ fileBlock badPageEnv 0 ⟨"doc.pdf", "application/pdf"⟩
      = "File: " ++ "doc.pdf" ++ "\n\n" ++ failureMessage ++ "\n\n" :=
  ⟨rfl, rfl, by decide,
    (c7_page_failure_fails_whole_file badPageEnv ⟨"doc.pdf", "application/pdf"⟩
      2 2 rfl rfl (by decide) (by decide) (by decide)).1,
    (c7_page_failure_fails_whole_file badPageEnv ⟨"doc.pdf", "application/pdf"⟩
      2 2 rfl rfl (by decide) (by decide) (by decide)).2⟩

/-! ## C8: one worker, initialized once, reused throughout -/

/-- C8 (confirmed). Provided language load does not abort before the
`initialize` call, a run creates exactly one worker and calls
`initialize` exactly once with the run's selected language; the trace
is create, load, initialize, then all file/page events, then terminate —
so initialization happens before any file is processed — and every
recognize call in the file/page events is addressed to the one created
worker (id `0`), never a re-initialized one. -/
theorem c8_one_worker_initialized_once (env : Env) (lang : String)
    (files : List QueuedFile) (h : env.loadOk = true) :
    ((processFiles env lang files).1.countP Event.isCreate = 1)
    ∧ ((processFiles env lang files).1.countP Event.isInitialize = 1)
    ∧ ∃ evs, (processFiles env lang files).1
          = [Event.createWorker 0, Event.loadLanguage 0 lang,
             Event.initializeWorker 0 lang] ++ evs ++ [Event.terminateWorker 0]
        ∧ ∀ e ∈ evs, e.isRecognize = true → e.workerId = some 0 := by
  unfold processFiles
  cases hi : env.initOk with
  | false =>
    refine ⟨by simp [h, Event.isCreate, List.countP_cons],
      by simp [h, Event.isInitialize, List.countP_cons], [], by simp [h], ?_⟩
    simp
  | true =>
    refine ⟨?_, ?_, (filesLoop env 0 files).1, by simp [h], ?_⟩
    · simp [h, List.countP_append, List.countP_cons, Event.isCreate,
        filesLoop_countP_create]
    · simp [h, List.countP_append, List.countP_cons, Event.isInitialize,
        filesLoop_countP_initialize]
    · intro e he _
      exact (filesLoop_nonLifecycle env 0 files e he).2.2.2 (by
        exact (by assumption))

/-- Witness for C8: a one-file batch in `sampleEnv`. -/
theorem c8_witness :
    sampleEnv.loadOk = true
    ∧ (((processFiles sampleEnv "eng"
          [⟨"good.png", "image/png"⟩]).1.countP Event.isCreate = 1)
      ∧ ((processFiles sampleEnv "eng"
          [⟨"good.png", "image/png"⟩]).1.countP Event.isInitialize = 1)
      ∧ ∃ evs, (processFiles sampleEnv "eng" [⟨"good.png", "image/png"⟩]).1
            = [Event.createWorker 0, Event.loadLanguage 0 "eng",
               Event.initializeWorker 0 "eng"] ++ evs ++ [Event.terminateWorker 0]
          ∧ ∀ e ∈ evs, e.isRecognize = true → e.workerId = some 0) :=
  ⟨rfl, c8_one_worker_initialized_once sampleEnv "eng"
    [⟨"good.png", "image/png"⟩] rfl⟩

/-! ## C9: classification routes by declared type -/

/-- C9 (confirmed). Classification is a pure decision on the declared
type: a file declared `application/pdf` takes the multi-page path, and
a file of any other supported type (`image/tiff`, `image/png`,
`image/jpeg`) takes the single-image path, in which the file itself is
recognized directly in one call. -/
theorem c9_classification_routes (env : Env) (wid : Nat) (f : QueuedFile) :
    (f.type = "application/pdf" → processOneFile env wid f = processPDF env wid f)
    ∧ ((f.type = "image/tiff" ∨ f.type = "image/png" ∨ f.type = "image/jpeg") →
        processOneFile env wid f
          = ([Event.recognizeEv wid (ImageSource.file f)],
             env.recognize (ImageSource.file f))) := by
  constructor
  · intro h
    simp [processOneFile, h]
  · intro h
    have hne : ¬f.type = "application/pdf" := by
      rcases h with h | h | h <;> simp [h]
    simp [processOneFile, hne, processImage]

/-- Witness for C9: both routes at concrete files. -/
theorem c9_witness :
    processOneFile sampleEnv 0 ⟨"doc.pdf", "application/pdf"⟩
      = processPDF sampleEnv 0 ⟨"doc.pdf", "application/pdf"⟩
    ∧ processOneFile sampleEnv 0 ⟨"good.png", "image/png"⟩
      = ([Event.recognizeEv 0 (ImageSource.file ⟨"good.png", "image/png"⟩)],
         sampleEnv.recognize (ImageSource.file ⟨"good.png", "image/png"⟩)) :=
  ⟨(c9_classification_routes sampleEnv 0 ⟨"doc.pdf", "application/pdf"⟩).1 rfl,
   (c9_classification_routes sampleEnv 0 ⟨"good.png", "image/png"⟩).2
     (Or.inr (Or.inl rfl))⟩

/-! ## C10: the empty batch -/

/-- C10 (confirmed). On an empty queue, a run whose load and
initialization succeed still creates the worker, loads and initializes
the language, and terminates the worker — each exactly once — records
no error, and publishes the empty report containing no file blocks. -/
theorem c10_empty_queue (env : Env) (lang : String)
    (h1 : env.loadOk = true) (h2 : env.initOk = true) :
    processFiles env lang []
      = ([Event.createWorker 0, Event.loadLanguage 0 lang,
          Event.initializeWorker 0 lang, Event.terminateWorker 0],
         { isProcessing := false, results := "", progress := 0, error := none }) := by
  unfold processFiles
  simp [h1, h2, filesLoop]

/-- Witness for C10: the empty batch in `sampleEnv`. -/
theorem c10_witness :
    sampleEnv.loadOk = true ∧ sampleEnv.initOk = true
    ∧ processFiles sampleEnv "eng" []
      = ([Event.createWorker 0, Event.loadLanguage 0 "eng",
          Event.initializeWorker 0 "eng", Event.terminateWorker 0],
         { isProcessing := false, results := "", progress := 0, error := none }) :=
  ⟨rfl, rfl, c10_empty_queue sampleEnv "eng" rfl rfl⟩
